import Mathlib

/-!
Shallow embedding of `pinball` (src/main.rs), a tool that applies a tuning
profile to network interfaces: it sets hardware queue counts via an external
`ethtool` invocation and pins IRQ lines by writing CPU affinity lists into
kernel control files.

Side effects are modelled as an explicit trace (`List Effect`) paired with an
`Outcome` (normal return, `std::process::exit`, or a panic from `assert!` /
`expect`).  Results of the I/O operations the program cannot control (file
open/write success, external process launch, file read, TOML parse) are
supplied by oracle parameters, so each source function becomes a pure Lean
function from its inputs and oracles to its effect trace and outcome.

The Rust `HashMap<String, String>` of IRQ entries is iterated in an
unspecified order; it is modelled as a `List (String × String)` standing for
whatever iteration order occurs.  Rust validates `u8` bytes of UTF-8 strings;
the character-level predicates below agree with the byte-level ones because
every allowed byte is ASCII and every char ≥ U+0080 contributes only bytes
≥ 0x80, which the byte-level checks likewise reject.
-/

namespace Pinball

/-- Rust `u8::is_ascii_digit`, lifted to the char whose code point is that
byte (see header note on ASCII faithfulness). -/
def isAsciiDigit (c : Char) : Bool :=
  '0' ≤ c && c ≤ '9'

/-- Rust `u8::is_ascii_alphanumeric`. -/
def isAsciiAlphanumeric (c : Char) : Bool :=
  isAsciiDigit c || ('a' ≤ c && c ≤ 'z') || ('A' ≤ c && c ≤ 'Z')

/-- The affinity-list validation of `set_irq_affinity` (main.rs:120):
`affinity.bytes().all(|b| b.is_ascii_digit() || b == b"-"[0] || b == b","[0])`. -/
def validAffinity (s : String) : Bool :=
  s.data.all (fun c => isAsciiDigit c || c = '-' || c = ',')

/-- The interface-name validation of `NetworkQueues::apply` (main.rs:152):
`nic.bytes().all(|b| b.is_ascii_alphanumeric())`. -/
def validNicName (s : String) : Bool :=
  s.data.all isAsciiAlphanumeric

/-- One observable side effect of the program. -/
inductive Effect
  | printStdout (s : String)
  | printStderr (s : String)
  | readFile (path : String)
  | openFile (path : String)
  | writeFile (path : String) (content : String)
  | sleepMs (ms : Nat)
  | spawn (cmd : String) (args : List String)
  deriving DecidableEq

/-- How a fragment of the program finishes: fall through normally, terminate
the whole process via `std::process::exit(code)`, or panic (from `assert!`
or `expect`). -/
inductive Outcome
  | normal
  | exited (code : Nat)
  | panicked (msg : String)
  deriving DecidableEq

/-- A program fragment: the effect trace it emits and how it finishes. -/
abbrev Prog := List Effect × Outcome

/-- Sequential composition: the second fragment runs only when the first
falls through normally; `exit` and panics abort everything after them. -/
def seq (a b : Prog) : Prog :=
  match a.2 with
  | .normal => (a.1 ++ b.1, b.2)
  | _ => a

/-- Result of one retry-loop iteration's I/O, supplied by the oracle: the
`File::options().open(...)` call fails, or it succeeds and `write_all`
fails, or both succeed. -/
inductive AttemptResult
  | openFail
  | writeFail
  | ok
  deriving DecidableEq

/-- The kernel control path `format!("/proc/irq/{irq}/smp_affinity_list")`. -/
def irqPath (irq : Nat) : String :=
  "/proc/irq/" ++ Nat.repr irq ++ "/smp_affinity_list"

/-- The message of main.rs:132:
`eprintln!("failed to set irq: {irq} smp affinity list: {affinity}")`. -/
def irqFailMsg (irq : Nat) (affinity : String) : String :=
  "failed to set irq: " ++ Nat.repr irq ++ " smp affinity list: " ++ affinity

/-- Rust `str::parse::<u32>`: optional leading `+`, then one or more ASCII
digits, value at most `u32::MAX`; anything else is an error (`none`). -/
def parseU32 (s : String) : Option Nat :=
  let cs : List Char :=
    match s.data with
    | '+' :: rest => rest
    | cs => cs
  if cs = [] then none
  else if cs.all isAsciiDigit then
    let v := cs.foldl (fun acc c => acc * 10 + (c.toNat - '0'.toNat)) 0
    if v ≤ 4294967295 then some v else none
  else none

/-- The retry loop body of `set_irq_affinity` (main.rs:122-135), run over the
remaining iteration indices of `for i in 0..5`.  Each iteration opens the
control file; on open success it writes the affinity bytes; on write success
it breaks out of the loop.  Otherwise it sleeps 100ms and, when `i == 4`,
reports the failure and exits the process with code 1. -/
def irqAttempts (att : Nat → AttemptResult) (irq : Nat) (affinity : String) :
    List Nat → Prog
  | [] => ([], .normal)
  | i :: rest =>
    match att i with
    | .ok =>
      ([.openFile (irqPath irq), .writeFile (irqPath irq) affinity], .normal)
    | .writeFail =>
      let head : List Effect :=
        [.openFile (irqPath irq), .writeFile (irqPath irq) affinity, .sleepMs 100]
      if i = 4 then
        (head ++ [.printStderr (irqFailMsg irq affinity)], .exited 1)
      else
        let t := irqAttempts att irq affinity rest
        (head ++ t.1, t.2)
    | .openFail =>
      let head : List Effect := [.openFile (irqPath irq), .sleepMs 100]
      if i = 4 then
        (head ++ [.printStderr (irqFailMsg irq affinity)], .exited 1)
      else
        let t := irqAttempts att irq affinity rest
        (head ++ t.1, t.2)

/-- Processing of one `(irq, affinity)` entry of `set_irq_affinity`
(main.rs:116-135): parse the key as `u32` (`expect` panics on failure),
assert the affinity list is clean, then run the retry loop. -/
def processIrqEntry (att : Nat → AttemptResult) (irqKey affinity : String) : Prog :=
  match parseU32 irqKey with
  | none => ([], .panicked "failed to parse")
  | some irq =>
    if validAffinity affinity then
      irqAttempts att irq affinity [0, 1, 2, 3, 4]
    else
      ([], .panicked "assertion failed")

/-- The entry loop of `set_irq_affinity` over the iteration order of the
`irqs` map; `att` gives each key's per-attempt I/O results. -/
def set_irq_affinity_loop (att : String → Nat → AttemptResult) :
    List (String × String) → Prog
  | [] => ([], .normal)
  | (k, a) :: rest =>
    seq (processIrqEntry (att k) k a) (set_irq_affinity_loop att rest)

/-- `NetworkQueues` (main.rs:140-145): three independent optional counts. -/
structure NetworkQueues where
  transmit : Option Nat
  receive : Option Nat
  combined : Option Nat
  deriving DecidableEq

/-- `NetworkQueues::args` (main.rs:163-182): push `"tx" n`, `"rx" n`,
`"combined" n` for the fields that are set, in that order. -/
def NetworkQueues.args (q : NetworkQueues) : List String :=
  let r : List String := []
  let r := match q.transmit with
    | some tx => r ++ ["tx", Nat.repr tx]
    | none => r
  let r := match q.receive with
    | some rx => r ++ ["rx", Nat.repr rx]
    | none => r
  let r := match q.combined with
    | some combined => r ++ ["combined", Nat.repr combined]
    | none => r
  r

/-- The external tool path used by `NetworkQueues::apply`. -/
def ethtool : String := "/usr/sbin/ethtool"

/-- `NetworkQueues::apply` (main.rs:149-160): assert the interface name is
alphanumeric, then spawn `/usr/sbin/ethtool -L <nic> <args>`.  The oracle
`launch` is `some status` when the process launched (its exit status is
ignored by the code) and `none` when launching failed, which makes
`.output().expect(...)` panic. -/
def NetworkQueues.apply (q : NetworkQueues) (nic : String) (launch : Option Nat) :
    Prog :=
  if validNicName nic then
    match launch with
    | some _ => ([.spawn ethtool ("-L" :: nic :: q.args)], .normal)
    | none =>
      ([.spawn ethtool ("-L" :: nic :: q.args)], .panicked "failed to execute process")
  else
    ([], .panicked "assertion failed")

/-- `Display for NetworkQueues` (main.rs:185-190): the args joined by spaces. -/
def NetworkQueues.display (q : NetworkQueues) : String :=
  String.intercalate " " q.args

/-- `NetworkInterface` (main.rs:95-100); the `irqs` hash map is modelled as
its iteration order. -/
structure NetworkInterface where
  name : String
  queues : NetworkQueues
  irqs : List (String × String)
  deriving DecidableEq

/-- The I/O oracles one interface's configuration consumes. -/
structure NicEnv where
  launch : Option Nat
  att : String → Nat → AttemptResult

/-- `NetworkInterface::set_irq_affinity` (main.rs:115-137). -/
def NetworkInterface.set_irq_affinity (n : NetworkInterface)
    (att : String → Nat → AttemptResult) : Prog :=
  set_irq_affinity_loop att n.irqs

/-- `NetworkInterface::configure_queues` (main.rs:111-113). -/
def NetworkInterface.configure_queues (n : NetworkInterface) (launch : Option Nat) :
    Prog :=
  n.queues.apply n.name launch

/-- `NetworkInterface::configure` (main.rs:103-109): two progress prints,
queue configuration, another print, then IRQ affinity. -/
def NetworkInterface.configure (n : NetworkInterface) (env : NicEnv) : Prog :=
  seq ([.printStdout ("configuring IRQs for: " ++ n.name),
        .printStdout ("setting queues to: " ++ n.queues.display)], .normal)
    (seq (n.configure_queues env.launch)
      (seq ([.printStdout "setting IRQ affinity"], .normal)
        (n.set_irq_affinity env.att)))

/-- `Profile` (main.rs:89-93). -/
structure Profile where
  name : String
  network_interface : List NetworkInterface
  deriving DecidableEq

/-- `Config` (main.rs:60-63).  The Rust field is also called `profile`; Lean
cannot give the field and the lookup method the same name, so the field is
`profiles` and the method keeps the source name `Config.profile`. -/
structure Config where
  profiles : List Profile
  deriving DecidableEq

/-- `Config::profile` (main.rs:84-86):
`self.profile.iter().find(|&profile| profile.name == name)`. -/
def Config.profile (c : Config) (name : String) : Option Profile :=
  c.profiles.find? (fun p => p.name == name)

/-- Oracle for `std::fs::read_to_string`. -/
inductive ReadResult
  | ok (content : String)
  | err (msg : String)

/-- Oracle for `toml::from_str`. -/
inductive ParseResult
  | ok (c : Config)
  | err (msg : String)

/-- Rust `{:?}` (Debug) rendering of a `PathBuf`, for paths without quotes
or backslashes: the path in double quotes. -/
def pathDebug (p : String) : String := "\"" ++ p ++ "\""

/-- `Config::load` (main.rs:66-82).  Both failure modes print to stderr and
exit the whole process from inside the loader, so the function never returns
a recoverable error: it either exits or yields the parsed config. -/
def Config.load (path : String) (read : ReadResult) (parse : String → ParseResult) :
    Prog × Option Config :=
  match read with
  | .err e =>
    (([.readFile path, .printStderr ("unable to open config file: " ++ e)],
      .exited 1), none)
  | .ok content =>
    match parse content with
    | .err e =>
      (([.readFile path, .printStderr ("failed to parse config file: " ++ e)],
        .exited 1), none)
    | .ok c => (([.readFile path], .normal), some c)

/-- The interface loop of `main` (main.rs:54-56), with per-position oracles. -/
def runInterfaces (env : Nat → NicEnv) : List NetworkInterface → Prog
  | [] => ([], .normal)
  | n :: rest =>
    seq (n.configure (env 0)) (runInterfaces (fun i => env (i + 1)) rest)

/-- The profile-not-found message of main.rs:50. -/
def profileNotFoundMsg (profileName configPath : String) : String :=
  "profile: " ++ profileName ++ " was not found in the config: " ++
    pathDebug configPath

/-- `main` after argument parsing (main.rs:38-57): print the loading banner,
load the config, look up the profile (exiting with a message naming the
profile and the config path when absent), then configure each interface. -/
def mainRun (configPath profileName : String) (read : ReadResult)
    (parse : String → ParseResult) (env : Nat → NicEnv) : Prog :=
  let banner : Prog :=
    ([.printStdout ("loading config: " ++ pathDebug configPath)], .normal)
  match Config.load configPath read parse with
  | (lp, none) => seq banner lp
  | (lp, some c) =>
    match c.profile profileName with
    | none =>
      seq banner (seq lp
        (([.printStderr (profileNotFoundMsg profileName configPath)], .exited 1)))
    | some p => seq banner (seq lp (runInterfaces env p.network_interface))

/-! ## Basic lemmas about sequencing -/

theorem seq_of_normal (a b : Prog) (h : a.2 = .normal) :
    seq a b = (a.1 ++ b.1, b.2) := by
  unfold seq
  rw [h]

theorem seq_of_not_normal (a b : Prog) (h : a.2 ≠ .normal) : seq a b = a := by
  unfold seq
  cases ha : a.2 with
  | normal => exact absurd ha h
  | exited c => rfl
  | panicked m => rfl

theorem seq_snd_not_normal_right (a b : Prog) (h : b.2 ≠ .normal) :
    (seq a b).2 ≠ .normal := by
  by_cases ha : a.2 = .normal
  · rw [seq_of_normal a b ha]
    exact h
  · rw [seq_of_not_normal a b ha]
    exact ha

/-! ## Lemmas about the retry loop -/

/-- The effects one failed iteration of the retry loop leaves in the trace
(an attempted open, the attempted write when the open succeeded, and the
backoff sleep). -/
def failEffects (r : AttemptResult) (irq : Nat) (affinity : String) : List Effect :=
  match r with
  | .openFail => [.openFile (irqPath irq), .sleepMs 100]
  | .writeFail =>
    [.openFile (irqPath irq), .writeFile (irqPath irq) affinity, .sleepMs 100]
  | .ok => []

theorem irqAttempts_cons_fail (att : Nat → AttemptResult) (irq : Nat)
    (affinity : String) (i : Nat) (rest : List Nat) (hne : att i ≠ .ok)
    (hi : i ≠ 4) :
    irqAttempts att irq affinity (i :: rest) =
      (failEffects (att i) irq affinity ++ (irqAttempts att irq affinity rest).1,
        (irqAttempts att irq affinity rest).2) := by
  cases h : att i with
  | ok => exact absurd h hne
  | openFail => simp [irqAttempts, h, failEffects, hi]
  | writeFail => simp [irqAttempts, h, failEffects, hi]

theorem irqAttempts_cons_ok (att : Nat → AttemptResult) (irq : Nat)
    (affinity : String) (i : Nat) (rest : List Nat) (h : att i = .ok) :
    irqAttempts att irq affinity (i :: rest) =
      ([.openFile (irqPath irq), .writeFile (irqPath irq) affinity], .normal) := by
  simp [irqAttempts, h]

theorem irqAttempts_last_fail (att : Nat → AttemptResult) (irq : Nat)
    (affinity : String) (hne : att 4 ≠ .ok) :
    irqAttempts att irq affinity [4] =
      (failEffects (att 4) irq affinity ++ [.printStderr (irqFailMsg irq affinity)],
        .exited 1) := by
  cases h : att 4 with
  | ok => exact absurd h hne
  | openFail => simp [irqAttempts, h, failEffects]
  | writeFail => simp [irqAttempts, h, failEffects]

theorem failEffects_count_open (r : AttemptResult) (irq : Nat) (affinity : String)
    (h : r ≠ .ok) :
    (failEffects r irq affinity).count (Effect.openFile (irqPath irq)) = 1 := by
  cases r with
  | ok => exact absurd rfl h
  | openFail => simp [failEffects, List.count_cons]
  | writeFail => simp [failEffects, List.count_cons]

theorem failEffects_no_stderr (r : AttemptResult) (irq : Nat) (affinity m : String) :
    Effect.printStderr m ∉ failEffects r irq affinity := by
  cases r <;> simp [failEffects]

/-- Characterization of a full entry run in which the first four attempts
fail and the fifth succeeds. -/
theorem processIrqEntry_fail4_ok (att : Nat → AttemptResult) (irqKey affinity : String)
    (irq : Nat) (hk : parseU32 irqKey = some irq) (ha : validAffinity affinity = true)
    (hfail : ∀ i < 4, att i ≠ .ok) (hok : att 4 = .ok) :
    processIrqEntry att irqKey affinity =
      (failEffects (att 0) irq affinity ++ (failEffects (att 1) irq affinity ++
        (failEffects (att 2) irq affinity ++ (failEffects (att 3) irq affinity ++
          [.openFile (irqPath irq), .writeFile (irqPath irq) affinity]))),
        .normal) := by
  have h1 : processIrqEntry att irqKey affinity =
      irqAttempts att irq affinity [0, 1, 2, 3, 4] := by
    unfold processIrqEntry
    rw [hk]
    simp [ha]
  rw [h1,
    irqAttempts_cons_fail att irq affinity 0 _ (hfail 0 (by omega)) (by omega),
    irqAttempts_cons_fail att irq affinity 1 _ (hfail 1 (by omega)) (by omega),
    irqAttempts_cons_fail att irq affinity 2 _ (hfail 2 (by omega)) (by omega),
    irqAttempts_cons_fail att irq affinity 3 _ (hfail 3 (by omega)) (by omega),
    irqAttempts_cons_ok att irq affinity 4 _ hok]

/-- Characterization of a full entry run in which all five attempts fail. -/
theorem processIrqEntry_allFail (att : Nat → AttemptResult) (irqKey affinity : String)
    (irq : Nat) (hk : parseU32 irqKey = some irq) (ha : validAffinity affinity = true)
    (hfail : ∀ i, att i ≠ .ok) :
    processIrqEntry att irqKey affinity =
      (failEffects (att 0) irq affinity ++ (failEffects (att 1) irq affinity ++
        (failEffects (att 2) irq affinity ++ (failEffects (att 3) irq affinity ++
          (failEffects (att 4) irq affinity ++
            [.printStderr (irqFailMsg irq affinity)])))),
        .exited 1) := by
  have h1 : processIrqEntry att irqKey affinity =
      irqAttempts att irq affinity [0, 1, 2, 3, 4] := by
    unfold processIrqEntry
    rw [hk]
    simp [ha]
  rw [h1,
    irqAttempts_cons_fail att irq affinity 0 _ (hfail 0) (by omega),
    irqAttempts_cons_fail att irq affinity 1 _ (hfail 1) (by omega),
    irqAttempts_cons_fail att irq affinity 2 _ (hfail 2) (by omega),
    irqAttempts_cons_fail att irq affinity 3 _ (hfail 3) (by omega),
    irqAttempts_last_fail att irq affinity (hfail 4)]

/-! ## C3: argument generation -/

/-- The spec's description of one emitted parameter pair: `"<flag>", <n>`
when the field is set, nothing when it is unset (spec §4.2). -/
def specArgPair (flag : String) : Option Nat → List String
  | some n => [flag, Nat.repr n]
  | none => []

/-- C3: `NetworkQueues::args` emits the `tx`, `rx`, `combined` pairs in that
fixed order, omitting unset fields; with only `combined = N` the result is
exactly `["combined", N]`, and with all three set to `a`, `b`, `c` it is
exactly `["tx", a, "rx", b, "combined", c]`. -/
theorem c3_args_order (t r c : Option Nat) :
    NetworkQueues.args ⟨t, r, c⟩ =
      specArgPair "tx" t ++ specArgPair "rx" r ++ specArgPair "combined" c ∧
    (∀ N : Nat, NetworkQueues.args ⟨none, none, some N⟩ = ["combined", Nat.repr N]) ∧
    (∀ a b c' : Nat, NetworkQueues.args ⟨some a, some b, some c'⟩ =
      ["tx", Nat.repr a, "rx", Nat.repr b, "combined", Nat.repr c']) := by
  refine ⟨?_, ?_, ?_⟩
  · cases t <;> cases r <;> cases c <;> simp [NetworkQueues.args, specArgPair]
  · intro N
    simp [NetworkQueues.args]
  · intro a b c'
    simp [NetworkQueues.args]

/-! ## C1: affinity-list validation precedes any file access -/

/-- C1: for an affinity string with a byte outside digits/hyphen/comma, the
entry's processing emits no effects at all (in particular it neither opens
nor writes the kernel control file) and panics; when the interrupt key
parses, the panic is specifically the validation assertion. -/
theorem c1_affinity_validation (att : Nat → AttemptResult) (irqKey affinity : String)
    (h : validAffinity affinity = false) :
    (processIrqEntry att irqKey affinity).1 = [] ∧
    (∃ m, (processIrqEntry att irqKey affinity).2 = .panicked m) ∧
    (∀ irq, parseU32 irqKey = some irq →
      (processIrqEntry att irqKey affinity).2 = .panicked "assertion failed") := by
  cases hk : parseU32 irqKey with
  | none =>
    refine ⟨by simp [processIrqEntry, hk], ⟨"failed to parse", by simp [processIrqEntry, hk]⟩, ?_⟩
    intro irq h'
    exact absurd h' (by simp)
  | some irq =>
    refine ⟨by simp [processIrqEntry, hk, h], ⟨"assertion failed", by simp [processIrqEntry, hk, h]⟩, ?_⟩
    intro irq' h'
    simp [processIrqEntry, hk, h]

theorem c1_affinity_validation_witness :
    validAffinity "0,1; echo hi" = false ∧
    (processIrqEntry (fun _ => .ok) "7" "0,1; echo hi").1 = [] ∧
    (processIrqEntry (fun _ => .ok) "7" "0,1; echo hi").2 = .panicked "assertion failed" :=
  ⟨by decide,
   (c1_affinity_validation (fun _ => .ok) "7" "0,1; echo hi" (by decide)).1,
   (c1_affinity_validation (fun _ => .ok) "7" "0,1; echo hi" (by decide)).2.2 7 (by decide)⟩

/-! ## C2: interface-name validation precedes spawning -/

/-- C2: with a non-alphanumeric interface name, `NetworkQueues::apply`
panics on the assertion and emits no effects (in particular no spawn); with
an alphanumeric name the assertion is passed and the trace is exactly the
ethtool invocation. -/
theorem c2_nic_validation (q : NetworkQueues) (nic : String) (launch : Option Nat) :
    (validNicName nic = false →
      NetworkQueues.apply q nic launch = ([], .panicked "assertion failed")) ∧
    (validNicName nic = true →
      (NetworkQueues.apply q nic launch).1 = [.spawn ethtool ("-L" :: nic :: q.args)]) := by
  constructor
  · intro h
    simp [NetworkQueues.apply, h]
  · intro h
    cases launch <;> simp [NetworkQueues.apply, h]

theorem c2_nic_validation_witness :
    NetworkQueues.apply ⟨none, none, some 4⟩ "eth0; rm -rf" none =
      ([], .panicked "assertion failed") ∧
    (NetworkQueues.apply ⟨none, none, some 4⟩ "eth0" (some 0)).1 =
      [.spawn ethtool ("-L" :: "eth0" :: (⟨none, none, some 4⟩ : NetworkQueues).args)] :=
  ⟨(c2_nic_validation ⟨none, none, some 4⟩ "eth0; rm -rf" none).1 (by decide),
   (c2_nic_validation ⟨none, none, some 4⟩ "eth0" (some 0)).2 (by decide)⟩

/-! ## C4: the retry budget is exactly five attempts -/

/-- C4: when the first four attempts fail and the fifth succeeds, the entry
completes normally, the trace ends at the successful open/write pair (the
loop breaks immediately, with no further sleep or attempt), exactly five
opens were attempted, and nothing was reported on stderr. -/
theorem c4_retry_succeeds_on_fifth (att : Nat → AttemptResult)
    (irqKey affinity : String) (irq : Nat)
    (hk : parseU32 irqKey = some irq) (ha : validAffinity affinity = true)
    (hfail : ∀ i < 4, att i ≠ .ok) (hok : att 4 = .ok) :
    (processIrqEntry att irqKey affinity).2 = .normal ∧
    (∃ pre, (processIrqEntry att irqKey affinity).1 =
      pre ++ [.openFile (irqPath irq), .writeFile (irqPath irq) affinity]) ∧
    (processIrqEntry att irqKey affinity).1.count (Effect.openFile (irqPath irq)) = 5 ∧
    (∀ m, Effect.printStderr m ∉ (processIrqEntry att irqKey affinity).1) := by
  rw [processIrqEntry_fail4_ok att irqKey affinity irq hk ha hfail hok]
  refine ⟨rfl, ?_, ?_, ?_⟩
  · exact ⟨failEffects (att 0) irq affinity ++ (failEffects (att 1) irq affinity ++
      (failEffects (att 2) irq affinity ++ failEffects (att 3) irq affinity)),
      by simp⟩
  · simp only [List.count_append,
      failEffects_count_open _ _ _ (hfail 0 (by omega)),
      failEffects_count_open _ _ _ (hfail 1 (by omega)),
      failEffects_count_open _ _ _ (hfail 2 (by omega)),
      failEffects_count_open _ _ _ (hfail 3 (by omega))]
    simp [List.count_cons]
  · intro m hm
    simp only [List.mem_append] at hm
    rcases hm with h0 | h1 | h2 | h3 | h5
    · exact failEffects_no_stderr _ _ _ _ h0
    · exact failEffects_no_stderr _ _ _ _ h1
    · exact failEffects_no_stderr _ _ _ _ h2
    · exact failEffects_no_stderr _ _ _ _ h3
    · simp at h5

theorem c4_retry_succeeds_on_fifth_witness :
    (processIrqEntry (fun i => if i < 4 then AttemptResult.openFail else .ok)
      "12" "0-3").2 = .normal ∧
    (processIrqEntry (fun i => if i < 4 then AttemptResult.openFail else .ok)
      "12" "0-3").1.count (Effect.openFile (irqPath 12)) = 5 :=
  ⟨(c4_retry_succeeds_on_fifth (fun i => if i < 4 then AttemptResult.openFail else .ok)
      "12" "0-3" 12 (by decide) (by decide) (by decide) (by decide)).1,
   (c4_retry_succeeds_on_fifth (fun i => if i < 4 then AttemptResult.openFail else .ok)
      "12" "0-3" 12 (by decide) (by decide) (by decide) (by decide)).2.2.1⟩

/-! ## C5: retry exhaustion aborts the whole run -/

theorem seq_assoc (a b c : Prog) : seq (seq a b) c = seq a (seq b c) := by
  by_cases ha : a.2 = .normal
  · by_cases hb : b.2 = .normal
    · rw [seq_of_normal a b ha, seq_of_normal b c hb,
        seq_of_normal (a.1 ++ b.1, b.2) c (by simpa using hb),
        seq_of_normal a (b.1 ++ c.1, c.2) ha]
      simp
    · rw [seq_of_normal a b ha, seq_of_not_normal b c hb,
        seq_of_not_normal (a.1 ++ b.1, b.2) c (by simpa using hb),
        seq_of_normal a b ha]
  · rw [seq_of_not_normal a b ha, seq_of_not_normal a c ha,
      seq_of_not_normal a (seq b c) ha]

theorem set_irq_affinity_loop_append (att : String → Nat → AttemptResult)
    (l1 l2 : List (String × String)) :
    set_irq_affinity_loop att (l1 ++ l2) =
      seq (set_irq_affinity_loop att l1) (set_irq_affinity_loop att l2) := by
  induction l1 with
  | nil =>
    rw [List.nil_append]
    rw [seq_of_normal _ _ rfl]
    simp [set_irq_affinity_loop]
  | cons hd tl ih =>
    obtain ⟨k, a⟩ := hd
    rw [List.cons_append]
    simp only [set_irq_affinity_loop, ih, seq_assoc]

/-- Any entry list containing an entry whose attempts all fail (with a
parseable key and a valid affinity list) makes the loop finish abnormally. -/
theorem set_irq_affinity_loop_not_normal (attMap : String → Nat → AttemptResult)
    (irqKey affinity : String) (irq : Nat)
    (hk : parseU32 irqKey = some irq) (ha : validAffinity affinity = true)
    (hfail : ∀ i, attMap irqKey i ≠ .ok) (pre rest : List (String × String)) :
    (set_irq_affinity_loop attMap (pre ++ (irqKey, affinity) :: rest)).2 ≠ .normal := by
  induction pre with
  | nil =>
    have h := processIrqEntry_allFail (attMap irqKey) irqKey affinity irq hk ha hfail
    rw [List.nil_append]
    show (seq (processIrqEntry (attMap irqKey) irqKey affinity)
      (set_irq_affinity_loop attMap rest)).2 ≠ .normal
    rw [seq_of_not_normal _ _ (by rw [h]; simp), h]
    simp
  | cons hd tl ih =>
    obtain ⟨k, a⟩ := hd
    rw [List.cons_append]
    show (seq (processIrqEntry (attMap k) k a)
      (set_irq_affinity_loop attMap (tl ++ (irqKey, affinity) :: rest))).2 ≠ .normal
    by_cases hh : (processIrqEntry (attMap k) k a).2 = .normal
    · rw [seq_of_normal _ _ hh]
      exact ih
    · rw [seq_of_not_normal _ _ hh]
      exact hh

/-- C5: when every one of the five attempts for an entry fails, the entry's
processing prints the interrupt number and affinity string on stderr and
exits with code 1; an entry list reaching that entry ends in that exit with
no trace contributed by the entries after it; and the whole interface run is
the same with and without the interfaces queued after the failing one. -/
theorem c5_exhaustion_aborts (attMap : String → Nat → AttemptResult)
    (irqKey affinity : String) (irq : Nat)
    (hk : parseU32 irqKey = some irq) (ha : validAffinity affinity = true)
    (hfail : ∀ i, attMap irqKey i ≠ .ok) :
    ((processIrqEntry (attMap irqKey) irqKey affinity).2 = .exited 1 ∧
      Effect.printStderr (irqFailMsg irq affinity) ∈
        (processIrqEntry (attMap irqKey) irqKey affinity).1) ∧
    (∀ pre rest : List (String × String),
      (set_irq_affinity_loop attMap pre).2 = .normal →
      set_irq_affinity_loop attMap (pre ++ (irqKey, affinity) :: rest) =
        ((set_irq_affinity_loop attMap pre).1 ++
          (processIrqEntry (attMap irqKey) irqKey affinity).1, .exited 1)) ∧
    (∀ (env : Nat → NicEnv) (nic : NetworkInterface)
      (nicsRest : List NetworkInterface) (pre rest : List (String × String)),
      nic.irqs = pre ++ (irqKey, affinity) :: rest →
      (env 0).att = attMap →
      runInterfaces env (nic :: nicsRest) = runInterfaces env [nic]) := by
  have hp := processIrqEntry_allFail (attMap irqKey) irqKey affinity irq hk ha hfail
  refine ⟨⟨by rw [hp], by rw [hp]; simp⟩, ?_, ?_⟩
  · intro pre rest hpre
    rw [set_irq_affinity_loop_append, seq_of_normal _ _ hpre]
    show ((set_irq_affinity_loop attMap pre).1 ++
        (seq (processIrqEntry (attMap irqKey) irqKey affinity)
          (set_irq_affinity_loop attMap rest)).1,
      (seq (processIrqEntry (attMap irqKey) irqKey affinity)
        (set_irq_affinity_loop attMap rest)).2) = _
    rw [seq_of_not_normal _ _ (by rw [hp]; simp), hp]
  · intro env nic nicsRest pre rest hirqs henv
    have hcfg : (nic.configure (env 0)).2 ≠ .normal := by
      unfold NetworkInterface.configure
      apply seq_snd_not_normal_right
      apply seq_snd_not_normal_right
      apply seq_snd_not_normal_right
      unfold NetworkInterface.set_irq_affinity
      rw [henv, hirqs]
      exact set_irq_affinity_loop_not_normal attMap irqKey affinity irq hk ha
        hfail pre rest
    show seq (nic.configure (env 0)) (runInterfaces (fun i => env (i + 1)) nicsRest) =
      seq (nic.configure (env 0)) (runInterfaces (fun i => env (i + 1)) [])
    rw [seq_of_not_normal _ _ hcfg, seq_of_not_normal _ _ hcfg]

theorem c5_exhaustion_aborts_witness :
    (processIrqEntry ((fun _ _ => AttemptResult.openFail) "3") "3" "0-1").2 =
      .exited 1 ∧
    Effect.printStderr (irqFailMsg 3 "0-1") ∈
      (processIrqEntry ((fun _ _ => AttemptResult.openFail) "3") "3" "0-1").1 ∧
    runInterfaces (fun _ => ⟨some 0, fun _ _ => AttemptResult.openFail⟩)
      [⟨"eth0", ⟨none, none, none⟩, [("3", "0-1")]⟩,
       ⟨"eth1", ⟨none, none, none⟩, []⟩] =
    runInterfaces (fun _ => ⟨some 0, fun _ _ => AttemptResult.openFail⟩)
      [⟨"eth0", ⟨none, none, none⟩, [("3", "0-1")]⟩] := by
  have h := c5_exhaustion_aborts (fun _ _ => AttemptResult.openFail) "3" "0-1" 3
    (by decide) (by decide) (fun i h => by simp at h)
  exact ⟨h.1.1, h.1.2, h.2.2 _ _ _ [] [] rfl rfl⟩

/-! ## C6: profile lookup returns the first match in file order -/

/-- Decomposition of a successful `List.find?`: the found element is the
first one satisfying the predicate. -/
theorem find?_decomp {α : Type} (f : α → Bool) :
    ∀ (l : List α) (a : α), l.find? f = some a →
      ∃ l1 l2, l = l1 ++ a :: l2 ∧ ∀ x ∈ l1, f x = false := by
  intro l
  induction l with
  | nil =>
    intro a h
    simp [List.find?] at h
  | cons hd tl ih =>
    intro a h
    by_cases hf : f hd
    · rw [List.find?_cons_of_pos tl hf] at h
      obtain rfl : hd = a := by injection h
      exact ⟨[], tl, rfl, by simp⟩
    · rw [List.find?_cons_of_neg tl hf] at h
      obtain ⟨l1, l2, rfl, hall⟩ := ih a h
      refine ⟨hd :: l1, l2, rfl, ?_⟩
      intro x hx
      cases hx with
      | head => simpa using hf
      | tail _ hx => exact hall x hx

/-- C6: `Config::profile` is a linear first-match scan: it returns `none`
exactly when no profile has the given name; a returned profile has that name
and sits at a position all of whose predecessors have other names; and with
two identically named profiles the first in file order is returned. -/
theorem c6_profile_first_match (cfg : Config) (nm : String) :
    (Config.profile cfg nm = none ↔ ∀ p ∈ cfg.profiles, p.name ≠ nm) ∧
    (∀ p, Config.profile cfg nm = some p →
      p.name = nm ∧ ∃ l1 l2, cfg.profiles = l1 ++ p :: l2 ∧ ∀ q ∈ l1, q.name ≠ nm) ∧
    (∀ ifs1 ifs2 : List NetworkInterface,
      Config.profile ⟨[⟨nm, ifs1⟩, ⟨nm, ifs2⟩]⟩ nm = some ⟨nm, ifs1⟩) := by
  refine ⟨?_, ?_, ?_⟩
  · unfold Config.profile
    rw [List.find?_eq_none]
    constructor
    · intro h p hp
      simpa using h p hp
    · intro h p hp
      simpa using h p hp
  · intro p hp
    have h1 : p.name = nm := by simpa using List.find?_some hp
    refine ⟨h1, ?_⟩
    obtain ⟨l1, l2, he, hall⟩ := find?_decomp _ cfg.profiles p hp
    refine ⟨l1, l2, he, ?_⟩
    intro q hq
    simpa using hall q hq
  · intro ifs1 ifs2
    unfold Config.profile
    exact List.find?_cons_of_pos _ (by simp)

theorem c6_profile_first_match_witness :
    Config.profile ⟨[⟨"srv", []⟩, ⟨"srv", [⟨"eth0", ⟨none, none, none⟩, []⟩]⟩]⟩ "srv" =
      some ⟨"srv", []⟩ ∧
    (⟨"srv", []⟩ : Profile).name = "srv" :=
  ⟨(c6_profile_first_match ⟨[⟨"srv", []⟩, ⟨"srv", [⟨"eth0", ⟨none, none, none⟩, []⟩]⟩]⟩
      "srv").2.2 [] [⟨"eth0", ⟨none, none, none⟩, []⟩],
   ((c6_profile_first_match ⟨[⟨"srv", []⟩, ⟨"srv", [⟨"eth0", ⟨none, none, none⟩, []⟩]⟩]⟩
      "srv").2.1 ⟨"srv", []⟩ (by decide)).1⟩

/-! ## C7: configuration errors are reported and terminate the process -/

/-- C7: each configuration failure — unreadable file, parse failure, missing
profile — produces exactly one read attempt, a report, and process exit with
code 1; the full output contains the config path in every case (via the
loading banner), and the missing-profile message itself contains both the
profile name and the config path as substrings. -/
theorem c7_config_errors (configPath profileName e content : String)
    (parse : String → ParseResult) (env : Nat → NicEnv) (cfg : Config) :
    (mainRun configPath profileName (.err e) parse env =
      ([.printStdout ("loading config: " ++ pathDebug configPath),
        .readFile configPath,
        .printStderr ("unable to open config file: " ++ e)], .exited 1) ∧
      (∃ l r, ("loading config: " ++ pathDebug configPath).data =
        l ++ configPath.data ++ r)) ∧
    (parse content = .err e →
      mainRun configPath profileName (.ok content) parse env =
        ([.printStdout ("loading config: " ++ pathDebug configPath),
          .readFile configPath,
          .printStderr ("failed to parse config file: " ++ e)], .exited 1)) ∧
    (parse content = .ok cfg → cfg.profile profileName = none →
      mainRun configPath profileName (.ok content) parse env =
        ([.printStdout ("loading config: " ++ pathDebug configPath),
          .readFile configPath,
          .printStderr (profileNotFoundMsg profileName configPath)], .exited 1) ∧
      (∃ l r, (profileNotFoundMsg profileName configPath).data =
        l ++ profileName.data ++ r) ∧
      (∃ l r, (profileNotFoundMsg profileName configPath).data =
        l ++ configPath.data ++ r)) := by
  refine ⟨⟨?_, ?_⟩, ?_, ?_⟩
  · simp [mainRun, Config.load, seq]
  · exact ⟨("loading config: " ++ "\"").data, "\"".data,
      by simp [pathDebug, String.data_append]⟩
  · intro hparse
    simp [mainRun, Config.load, hparse, seq]
  · intro hparse hprof
    refine ⟨by simp [mainRun, Config.load, hparse, hprof, seq], ?_, ?_⟩
    · exact ⟨"profile: ".data,
        (" was not found in the config: " ++ pathDebug configPath).data,
        by simp [profileNotFoundMsg, String.data_append]⟩
    · exact ⟨("profile: " ++ profileName ++ " was not found in the config: " ++ "\"").data,
        "\"".data,
        by simp [profileNotFoundMsg, pathDebug, String.data_append]⟩

theorem c7_config_errors_witness :
    mainRun "pinball.toml" "srv" (.err "denied") (fun _ => .err "denied")
      (fun _ => ⟨some 0, fun _ _ => .ok⟩) =
      ([.printStdout ("loading config: " ++ pathDebug "pinball.toml"),
        .readFile "pinball.toml",
        .printStderr ("unable to open config file: " ++ "denied")], .exited 1) ∧
    mainRun "pinball.toml" "srv" (.ok "x") (fun _ => .err "bad toml")
      (fun _ => ⟨some 0, fun _ _ => .ok⟩) =
      ([.printStdout ("loading config: " ++ pathDebug "pinball.toml"),
        .readFile "pinball.toml",
        .printStderr ("failed to parse config file: " ++ "bad toml")], .exited 1) ∧
    mainRun "pinball.toml" "srv" (.ok "x") (fun _ => .ok ⟨[]⟩)
      (fun _ => ⟨some 0, fun _ _ => .ok⟩) =
      ([.printStdout ("loading config: " ++ pathDebug "pinball.toml"),
        .readFile "pinball.toml",
        .printStderr (profileNotFoundMsg "srv" "pinball.toml")], .exited 1) :=
  ⟨(c7_config_errors "pinball.toml" "srv" "denied" "x" (fun _ => .err "denied")
      (fun _ => ⟨some 0, fun _ _ => .ok⟩) ⟨[]⟩).1.1,
   (c7_config_errors "pinball.toml" "srv" "bad toml" "x" (fun _ => .err "bad toml")
      (fun _ => ⟨some 0, fun _ _ => .ok⟩) ⟨[]⟩).2.1 rfl,
   ((c7_config_errors "pinball.toml" "srv" "e" "x" (fun _ => .ok ⟨[]⟩)
      (fun _ => ⟨some 0, fun _ _ => .ok⟩) ⟨[]⟩).2.2 rfl (by decide)).1⟩

/-! ## C8: the external tool's exit status is ignored -/

/-- C8: with a valid interface name, `NetworkQueues::apply` finishes
normally for every exit status of the launched tool; only a launch failure
panics (the `expect` on `.output()`). -/
theorem c8_tool_status_ignored (q : NetworkQueues) (nic : String)
    (launch : Option Nat) (h : validNicName nic = true) :
    (∀ s, launch = some s → (NetworkQueues.apply q nic launch).2 = .normal) ∧
    (launch = none →
      (NetworkQueues.apply q nic launch).2 = .panicked "failed to execute process") := by
  constructor
  · rintro s rfl
    simp [NetworkQueues.apply, h]
  · rintro rfl
    simp [NetworkQueues.apply, h]

theorem c8_tool_status_ignored_witness :
    (NetworkQueues.apply ⟨some 1, none, none⟩ "eth0" (some 77)).2 = .normal ∧
    (NetworkQueues.apply ⟨some 1, none, none⟩ "eth0" none).2 =
      .panicked "failed to execute process" :=
  ⟨(c8_tool_status_ignored ⟨some 1, none, none⟩ "eth0" (some 77) (by decide)).1 77 rfl,
   (c8_tool_status_ignored ⟨some 1, none, none⟩ "eth0" none (by decide)).2 rfl⟩

/-! ## C9: both validators accept the empty string -/

/-- C9: the empty interface name passes the alphanumeric assertion, so the
tool is spawned with an empty interface argument; the empty affinity string
passes the digits/hyphens/commas assertion, so the empty string is written
to the kernel control file. -/
theorem c9_empty_strings_pass (q : NetworkQueues) (att : Nat → AttemptResult)
    (irqKey : String) (irq s : Nat) :
    validNicName "" = true ∧
    validAffinity "" = true ∧
    NetworkQueues.apply q "" (some s) =
      ([.spawn ethtool ("-L" :: "" :: q.args)], .normal) ∧
    (parseU32 irqKey = some irq → att 0 = .ok →
      processIrqEntry att irqKey "" =
        ([.openFile (irqPath irq), .writeFile (irqPath irq) ""], .normal)) := by
  refine ⟨rfl, rfl, by simp [NetworkQueues.apply, validNicName], ?_⟩
  intro hk h0
  have h1 : processIrqEntry att irqKey "" = irqAttempts att irq "" [0, 1, 2, 3, 4] := by
    unfold processIrqEntry
    rw [hk]
    simp [validAffinity]
  rw [h1, irqAttempts_cons_ok att irq "" 0 _ h0]

theorem c9_empty_strings_pass_witness :
    NetworkQueues.apply ⟨none, none, none⟩ "" (some 0) =
      ([.spawn ethtool ("-L" :: "" :: (⟨none, none, none⟩ : NetworkQueues).args)],
        .normal) ∧
    processIrqEntry (fun _ => .ok) "0" "" =
      ([.openFile (irqPath 0), .writeFile (irqPath 0) ""], .normal) :=
  ⟨(c9_empty_strings_pass ⟨none, none, none⟩ (fun _ => .ok) "0" 0 0).2.2.1,
   (c9_empty_strings_pass ⟨none, none, none⟩ (fun _ => .ok) "0" 0 0).2.2.2
     (by decide) rfl⟩

/-! ## C10: an all-unset queue configuration still invokes the tool -/

/-- C10: with transmit, receive, and combined all unset, `args` is empty and
`apply` still spawns the tool with just `-L <nic>`. -/
theorem c10_empty_queueset_still_invokes (nic : String) (s : Nat)
    (h : validNicName nic = true) :
    NetworkQueues.args ⟨none, none, none⟩ = [] ∧
    NetworkQueues.apply ⟨none, none, none⟩ nic (some s) =
      ([.spawn ethtool ["-L", nic]], .normal) := by
  refine ⟨rfl, ?_⟩
  simp [NetworkQueues.apply, h, NetworkQueues.args]

theorem c10_empty_queueset_still_invokes_witness :
    NetworkQueues.args ⟨none, none, none⟩ = [] ∧
    NetworkQueues.apply ⟨none, none, none⟩ "eth0" (some 0) =
      ([.spawn ethtool ["-L", "eth0"]], .normal) :=
  c10_empty_queueset_still_invokes "eth0" 0 (by decide)

end Pinball
